import Mathlib

/-!
Verification of the Melnor Bluetooth valve-timer library
(`melnor_bluetooth/device.py`) against its natural-language specification.

The Python module is embedded shallowly:

* byte strings become `List Nat` (each entry is one byte value);
* `struct.unpack_from` becomes an `Option`-returning reader that fails
  exactly when the buffer is shorter than `offset + width` (Python raises
  `struct.error` in that case);
* mutation of a `Valve` / `Device` object becomes explicit state passing;
  a method that can raise mid-way returns `Except σ σ`, where the `error`
  branch carries the state of the object at the moment the exception
  escaped (Python leaves earlier field assignments in place);
* `time_shift()` and `get_timestamp()` live in `melnor_bluetooth/parser/date.py`,
  which is not part of the sources verified here; following the spec
  (§4.1: an arbitrary `u32` correction constant / current unix time) they are
  passed as explicit `Nat` parameters;
* the UUID constants live in `melnor_bluetooth/constants.py`, also not part
  of the verified sources.  Only their distinctness matters to the code, so
  they are modelled as distinct string literals.
-/

/-- Modelled from the spec: `melnor_bluetooth/constants.py` is not among the
verified sources.  The constant is an opaque characteristic identifier; the
code only compares it for equality, so any string distinct from the other
UUID constants is a faithful model. -/
def BATTERY_UUID : String := "battery-uuid"

/-- Modelled from the spec: opaque characteristic identifier, see `BATTERY_UUID`. -/
def MANUFACTURER_UUID : String := "manufacturer-uuid"

/-- Modelled from the spec: opaque characteristic identifier, see `BATTERY_UUID`. -/
def UPDATED_AT_UUID : String := "updated-at-uuid"

/-- Modelled from the spec: opaque characteristic identifier, see `BATTERY_UUID`. -/
def VALVE_MANUAL_SETTINGS_UUID : String := "valve-manual-settings-uuid"

/-- Modelled from the spec: opaque characteristic identifier, see `BATTERY_UUID`. -/
def VALVE_MANUAL_STATES_UUID : String := "valve-manual-states-uuid"

/-- `struct.unpack_from(">?", buf, off)`: reads one byte as a boolean
(`True` iff the byte is non-zero); fails iff `buf.length < off + 1`. -/
def unpackBool (buf : List Nat) (off : Nat) : Option Bool :=
  (buf[off]?).map (fun b => b ≠ 0)

/-- `struct.unpack_from(">H", buf, off)`: big-endian unsigned 16-bit;
fails iff `buf.length < off + 2`. -/
def unpackU16 (buf : List Nat) (off : Nat) : Option Nat :=
  match buf[off]?, buf[off + 1]? with
  | some a, some b => some (a * 256 + b)
  | _, _ => none

/-- `struct.unpack_from(">I", buf, off)`: big-endian unsigned 32-bit;
fails iff `buf.length < off + 4`. -/
def unpackU32 (buf : List Nat) (off : Nat) : Option Nat :=
  match buf[off]?, buf[off + 1]?, buf[off + 2]?, buf[off + 3]? with
  | some a, some b, some c, some d =>
      some (a * 16777216 + b * 65536 + c * 256 + d)
  | _, _, _, _ => none

/-- Big-endian two-byte encoding of an unsigned 16-bit value
(the payload bytes produced by `struct.pack(">H", n)` for `n < 2^16`). -/
def u16be (n : Nat) : List Nat := [n / 256, n % 256]

/-- Big-endian four-byte encoding of an unsigned 32-bit value
(the payload bytes produced by `struct.pack(">I", n)` for `n < 2^32`). -/
def u32be (n : Nat) : List Nat :=
  [n / 16777216, n / 65536 % 256, n / 256 % 256, n % 256]

/-- The `Valve` class of `device.py`.  `_end_time` is a Python `int`
(the code subtracts `time_shift()` from a parsed counter, which may go
negative), hence `Int`. -/
structure Valve where
  _id : Nat
  _is_watering : Bool
  _manual_minutes : Nat
  _end_time : Int
  deriving Repr, DecidableEq

/-- `Valve.__init__`: defaults `_is_watering = False`, `_manual_minutes = 20`,
`_end_time = 0`. -/
def Valve.init (identifier : Nat) : Valve :=
  { _id := identifier, _is_watering := false, _manual_minutes := 20, _end_time := 0 }

/-- `Valve.update_state(raw_bytes, uuid)`.  `timeShift` stands for the
`time_shift()` call (see module docstring).  The result is `.ok v'` on normal
return and `.error v'` when a `struct.error` escapes, with `v'` the state of
the valve at that point: in the settings branch the code assigns
`_is_watering` from the unpack at `offset` *before* unpacking `_manual_minutes`
at `offset + 1`, so the first assignment survives a failure of the second. -/
def Valve.update_state (timeShift : Nat) (v : Valve) (raw_bytes : List Nat)
    (uuid : String) : Except Valve Valve :=
  let offset := v._id * 5
  if uuid = VALVE_MANUAL_SETTINGS_UUID then
    match unpackBool raw_bytes offset with
    | none => .error v
    | some w =>
      let v1 := { v with _is_watering := w }
      match unpackU16 raw_bytes (offset + 1) with
      | none => .error v1
      | some m => .ok { v1 with _manual_minutes := m }
  else if uuid = VALVE_MANUAL_STATES_UUID then
    match unpackU32 raw_bytes (offset + 1) with
    | none => .error v
    | some parsed =>
      .ok { v with _end_time := if parsed = 0 then 0 else (parsed : Int) - timeShift }
  else
    .ok v

/-- `Valve.is_watering` property: `self._is_watering == 1`
(in Python `True == 1` and `False == 0`, so this is the identity on `Bool`). -/
def Valve.is_watering (v : Valve) : Bool := v._is_watering

/-- `Valve.manual_watering_minutes` property. -/
def Valve.manual_watering_minutes (v : Valve) : Nat := v._manual_minutes

/-- `Valve.watering_end_time` property. -/
def Valve.watering_end_time (v : Valve) : Int := v._end_time

/-- `Valve._manual_setting_bytes`: `struct.pack(">?HH", w, m, m)`.
`struct.pack(">H", m)` raises for `m ≥ 2^16`, hence the `Option`. -/
def Valve._manual_setting_bytes (v : Valve) : Option (List Nat) :=
  if v._manual_minutes < 65536 then
    some ((if v._is_watering then 1 else 0) ::
      (u16be v._manual_minutes ++ u16be v._manual_minutes))
  else
    none

/-- The `Device` class of `device.py`.  The Python `_valves` list always holds
exactly 4 `Valve` objects (created in `__init__`), so it is embedded as four
fields.  `_model` / `_valve_count` are unset in Python before `_read_model`
runs; their defaults here stand for that uninitialized state. -/
structure Device where
  _battery : Nat
  _is_connected : Bool
  _model : List Char
  _valve_count : Nat
  _valve0 : Valve
  _valve1 : Valve
  _valve2 : Valve
  _valve3 : Valve
  deriving Repr, DecidableEq

/-- `Device.__init__`: battery 0, disconnected, four fresh valves with ids 0-3. -/
def Device.init : Device :=
  { _battery := 0, _is_connected := false, _model := [], _valve_count := 0,
    _valve0 := Valve.init 0, _valve1 := Valve.init 1,
    _valve2 := Valve.init 2, _valve3 := Valve.init 3 }

/-- `Device.zone1` property: `self._valves[0]`, unconditionally. -/
def Device.zone1 (d : Device) : Valve := d._valve0

/-- `Device.zone2` property: `self._valves[1]` if `self._valve_count > 1`,
otherwise Python falls off the function body and returns `None`. -/
def Device.zone2 (d : Device) : Option Valve :=
  if d._valve_count > 1 then some d._valve1 else none

/-- `Device.zone3` property: `self._valves[2]` if `self._valve_count > 2`. -/
def Device.zone3 (d : Device) : Option Valve :=
  if d._valve_count > 2 then some d._valve2 else none

/-- `Device.zone4` property: `self._valves[3]` if `self._valve_count > 2`
(the source really tests `> 2` here, the same condition as `zone3`). -/
def Device.zone4 (d : Device) : Option Valve :=
  if d._valve_count > 2 then some d._valve3 else none

/-- `Device.__getitem__(key)`: dispatches on the four zone names; any other
key falls through every `elif` and Python returns `None`. -/
def Device.getItem (d : Device) (key : String) : Option Valve :=
  if key = "zone1" then some d.zone1
  else if key = "zone2" then d.zone2
  else if key = "zone3" then d.zone3
  else if key = "zone4" then d.zone4
  else none

/-- Python `int(s)` restricted to the strings that `string[6:7]` can produce
(length ≤ 1): `int("")` and `int` of a non-digit raise `ValueError` (`none`);
a digit maps to its value. -/
def pyInt : List Char → Option Nat
  | [c] => if c.isDigit then some (c.toNat - 48) else none
  | _ => none

/-- `Device._read_model` applied to the decoded manufacturer characteristic:
`self._model = string[0:5]` runs first, then
`self._valve_count = int(string[6:7])`; if the `int` call raises, `_model`
has already been assigned (hence `Except Device Device`, the error branch
carrying the partially updated device). -/
def Device._read_model (d : Device) (manufacturer_data : List Char) :
    Except Device Device :=
  let string := manufacturer_data
  let d1 := { d with _model := string.take 5 }
  match pyInt ((string.drop 6).take 1) with
  | none => .error d1
  | some n => .ok { d1 with _valve_count := n }

/-- Connection bookkeeping used by the `connect()` model: the `_is_connected`
flag and the number of `establish_connection` (transport connect) calls made
so far. -/
structure ConnState where
  connected : Bool
  transportConnects : Nat
  deriving Repr, DecidableEq

/-- One full execution of the body of `Device.connect`.  The entire body runs
while holding `GLOBAL_BLUETOOTH_LOCK` (the `async with` spans the guard
check, `establish_connection`, and `_read_model`), so the bodies of
concurrent `connect()` calls execute serially in lock-grant order;
`connectOnce` is the effect of one such serialized body.  Since
`_connection_lock` is only ever acquired inside this globally-serialized
body, `self._connection_lock.locked()` is always `False` when the guard
runs, and the guard reduces to the `_is_connected` check.  `transportOk`
says whether `establish_connection` succeeds; on `BleakError` the handler
sets `_is_connected = False` and returns normally. -/
def Device.connectOnce (transportOk : Bool) (s : ConnState) : ConnState :=
  if s.connected then s
  else
    { connected := transportOk, transportConnects := s.transportConnects + 1 }

/-- Serialized execution of a batch of concurrent `connect()` callers in the
order the global bluetooth lock admits them; the `n`-th element of `callers`
tells whether the transport connect would succeed for the `n`-th caller. -/
def Device.runConnects (s : ConnState) (callers : List Bool) : ConnState :=
  callers.foldl (fun st ok => Device.connectOnce ok st) s

/-- A GATT write issued by `push_state`: characteristic, payload bytes,
`response=True`. -/
structure GattWrite where
  char : String
  payload : List Nat
  withResponse : Bool
  deriving Repr, DecidableEq

/-- The updated-at half of `push_state`: when the characteristic is present,
writes `struct.pack(">I", get_timestamp())` (which raises if the timestamp
does not fit an unsigned 32-bit, error branch carrying the writes already
issued). -/
def pushUpdatedAt (getTimestamp : Nat) (updatedAtPresent : Bool)
    (ws : List GattWrite) : Except (List GattWrite) (List GattWrite) :=
  if updatedAtPresent then
    if getTimestamp < 4294967296 then
      .ok (ws ++ [⟨UPDATED_AT_UUID, u32be getTimestamp, true⟩])
    else .error ws
  else .ok ws

/-- The body of `Device.push_state` after the connect-if-needed step,
described by the sequence of GATT writes it issues.  `settingsPresent` /
`updatedAtPresent` say whether `services.get_characteristic` finds the
respective characteristic (`None` means absent and the write is skipped).
The settings write concatenates `_manual_setting_bytes()` of valves
0,1,2,3 in that order; if any `struct.pack` in that expression raises, no
settings write happens (error branch carries the writes issued so far).
`getTimestamp` stands for the `get_timestamp()` call (see module docstring). -/
def Device.push_state_writes (getTimestamp : Nat)
    (settingsPresent updatedAtPresent : Bool) (d : Device) :
    Except (List GattWrite) (List GattWrite) :=
  if settingsPresent then
    match d._valve0._manual_setting_bytes, d._valve1._manual_setting_bytes,
        d._valve2._manual_setting_bytes, d._valve3._manual_setting_bytes with
    | some b0, some b1, some b2, some b3 =>
        pushUpdatedAt getTimestamp updatedAtPresent
          [⟨VALVE_MANUAL_SETTINGS_UUID, b0 ++ b1 ++ b2 ++ b3, true⟩]
    | _, _, _, _ => .error []
  else
    pushUpdatedAt getTimestamp updatedAtPresent []

/-- Result of one `read_gatt_char` as observed through
`asyncio.gather(..., return_exceptions=True)`: either the payload bytes or a
`BleakError` instance returned *as a value* in the result list. -/
inductive ReadOutcome where
  | ok (bs : List Nat)
  | bleakFailure
  deriving Repr, DecidableEq

/-- The Python exceptions that can escape the `try` block of `fetch_state`. -/
inductive PyExc where
  | bleakError
  | typeError
  | structError
  deriving Repr, DecidableEq

/-- The inner `for valve in self._valves` loop of `fetch_state` for one
characteristic: every valve's `update_state` is called with the same buffer.
If the gathered entry is a `BleakError` instance, `struct.unpack_from`
applied to it raises `TypeError` — but only when `uuid` selects a branch of
`update_state` that actually unpacks; for any other uuid `update_state`
returns without touching the buffer.  A `struct.error` from a too-short
buffer propagates as well (neither is caught by `except BleakError`). -/
def Device.updateValves (timeShift : Nat) (d : Device) (entry : ReadOutcome)
    (uuid : String) : Except (PyExc × Device) Device :=
  match entry with
  | .bleakFailure =>
      if uuid = VALVE_MANUAL_SETTINGS_UUID ∨ uuid = VALVE_MANUAL_STATES_UUID then
        .error (.typeError, d)
      else .ok d
  | .ok bs =>
      match d._valve0.update_state timeShift bs uuid with
      | .error v0 => .error (.structError, { d with _valve0 := v0 })
      | .ok v0 =>
        match d._valve1.update_state timeShift bs uuid with
        | .error v1 => .error (.structError, { d with _valve0 := v0, _valve1 := v1 })
        | .ok v1 =>
          match d._valve2.update_state timeShift bs uuid with
          | .error v2 =>
              .error (.structError, { d with _valve0 := v0, _valve1 := v1, _valve2 := v2 })
          | .ok v2 =>
            match d._valve3.update_state timeShift bs uuid with
            | .error v3 =>
                .error (.structError,
                  { d with _valve0 := v0, _valve1 := v1, _valve2 := v2, _valve3 := v3 })
            | .ok v3 =>
                .ok { d with _valve0 := v0, _valve1 := v1, _valve2 := v2, _valve3 := v3 }

/-- Modelled from the spec: `parse_battery_value` (in
`melnor_bluetooth/parser/battery.py`) is not among the verified sources; per
§4.2 it maps the raw battery payload to a 0-100 percentage through a fixed
lookup table.  The claims verified here do not depend on the table, so fetch
is parameterized over it; this stub instantiates the parameter in closed
statements. -/
def parseBatteryStub : List Nat → Nat := fun _ => 0

/-- The processing loop of `fetch_state` over the gathered results, in the
order `uuids = [BATTERY_UUID, VALVE_MANUAL_SETTINGS_UUID,
VALVE_MANUAL_STATES_UUID]`.  `asyncio.gather(..., return_exceptions=True)`
never raises: a failed read shows up as a `BleakError` *value* in
`bytes_array`.  For the battery entry the code first runs
`parse_battery_value(some_bytes)` — applying it to a `BleakError` instance
raises `TypeError` — and then the valve loop; for the other two entries only
the valve loop runs.  (The loop indexes `bytes_array[uuids.index(uuid)]`,
which equals `bytes_array[i]` since the three uuids are distinct.)  The error
branch carries the exception and the device state at the point it escaped. -/
def Device.fetchProcess (parseBattery : List Nat → Nat) (timeShift : Nat)
    (d : Device) (battery settings states : ReadOutcome) :
    Except (PyExc × Device) Device :=
  match battery with
  | .bleakFailure => .error (.typeError, d)
  | .ok bs =>
    let d0 := { d with _battery := parseBattery bs }
    match d0.updateValves timeShift (.ok bs) BATTERY_UUID with
    | .error e => .error e
    | .ok d1 =>
      match d1.updateValves timeShift settings VALVE_MANUAL_SETTINGS_UUID with
      | .error e => .error e
      | .ok d2 => d2.updateValves timeShift states VALVE_MANUAL_STATES_UUID

/-- The body of `Device.fetch_state` after the connect-if-needed step: the
`try` around `fetchProcess` with the `except BleakError` handler, which
re-raises only `BleakError` and only while `self._is_connected` is still
true; any other exception (in particular the `TypeError` produced by feeding
a gathered `BleakError` value into byte parsing) propagates unconditionally.
`_is_connected` is not modified by the processing itself, so the flag of the
carried device state is the flag the handler observes. -/
def Device.fetch_state_after_connect (parseBattery : List Nat → Nat)
    (timeShift : Nat) (d : Device) (battery settings states : ReadOutcome) :
    Except PyExc Device :=
  match Device.fetchProcess parseBattery timeShift d battery settings states with
  | .ok d2 => .ok d2
  | .error (e, d2) =>
      match e with
      | .bleakError => if d2._is_connected then .error e else .ok d2
      | _ => .error e

/-- Shared helper: a valve whose `_manual_minutes` fits an unsigned 16-bit
encodes to the explicit 5-byte big-endian list. -/
theorem manual_setting_bytes_eq (v : Valve) (h : v._manual_minutes < 65536) :
    v._manual_setting_bytes =
      some [(if v._is_watering then 1 else 0),
            v._manual_minutes / 256, v._manual_minutes % 256,
            v._manual_minutes / 256, v._manual_minutes % 256] := by
  unfold Valve._manual_setting_bytes
  rw [if_pos h]
  rfl

/-- C3: `_manual_setting_bytes` returns exactly 5 bytes, laid out big-endian
as `[isWatering:1][manualMinutes:2][manualMinutes:2]`.  The hypothesis is the
data-model invariant that `manualMinutes` is an unsigned 16-bit quantity
(Python's `struct.pack(">H", ...)` raises outside that range). -/
theorem C3_manual_setting_bytes_layout (v : Valve)
    (h : v._manual_minutes < 65536) :
    v._manual_setting_bytes =
      some [(if v.is_watering then 1 else 0),
            v.manual_watering_minutes / 256, v.manual_watering_minutes % 256,
            v.manual_watering_minutes / 256, v.manual_watering_minutes % 256] ∧
    ∀ bs, v._manual_setting_bytes = some bs → bs.length = 5 := by
  constructor
  · exact manual_setting_bytes_eq v h
  · intro bs hbs
    rw [manual_setting_bytes_eq v h] at hbs
    cases hbs
    rfl

/-- C3 witness: the zone with `is_watering = true`,
`manual_watering_minutes = 10` encodes to `[0x01, 0x00, 0x0A, 0x00, 0x0A]`. -/
theorem C3_manual_setting_bytes_layout_witness :
    Valve._manual_setting_bytes
        { _id := 0, _is_watering := true, _manual_minutes := 10, _end_time := 0 }
      = some [1, 0, 10, 0, 10] :=
  (C3_manual_setting_bytes_layout
    { _id := 0, _is_watering := true, _manual_minutes := 10, _end_time := 0 }
    (by decide)).1

/-- C7: `zone1` is always the valve at index 0; `zone2` is the valve at
index 1 exactly when `valve_count > 1`, else `None`; `zone3` is the valve at
index 2 exactly when `valve_count > 2`; `zone4` is the valve at index 3
exactly when `valve_count > 2` — the same condition as `zone3`, not
`valve_count > 3`. -/
theorem C7_zone_accessors (d : Device) :
    d.zone1 = d._valve0 ∧
    (1 < d._valve_count ↔ d.zone2 = some d._valve1) ∧
    (d._valve_count ≤ 1 ↔ d.zone2 = none) ∧
    (2 < d._valve_count ↔ d.zone3 = some d._valve2) ∧
    (d._valve_count ≤ 2 ↔ d.zone3 = none) ∧
    (2 < d._valve_count ↔ d.zone4 = some d._valve3) ∧
    (d._valve_count ≤ 2 ↔ d.zone4 = none) := by
  unfold Device.zone1 Device.zone2 Device.zone3 Device.zone4
  refine ⟨rfl, ?_, ?_, ?_, ?_, ?_, ?_⟩ <;>
    split_ifs with h <;> simp_all

/-- C10: `device[key]` yields `None` for every key other than the four zone
names, and for those four it yields exactly the corresponding zone accessor's
value. -/
theorem C10_getitem (d : Device) (key : String)
    (h : key ∉ (["zone1", "zone2", "zone3", "zone4"] : List String)) :
    d.getItem key = none ∧
    d.getItem "zone1" = some d.zone1 ∧
    d.getItem "zone2" = d.zone2 ∧
    d.getItem "zone3" = d.zone3 ∧
    d.getItem "zone4" = d.zone4 := by
  simp only [List.mem_cons, List.mem_singleton, not_or] at h
  obtain ⟨h1, h2, h3, h4, -⟩ := h
  refine ⟨?_, rfl, rfl, rfl, rfl⟩
  unfold Device.getItem
  rw [if_neg h1, if_neg h2, if_neg h3, if_neg h4]

/-- C10 witness: at the concrete key `"battery"` the lookup is `None`, and
the four zone keys agree with the accessors on the freshly constructed
device. -/
theorem C10_getitem_witness :
    Device.init.getItem "battery" = none ∧
    Device.init.getItem "zone1" = some Device.init.zone1 ∧
    Device.init.getItem "zone2" = Device.init.zone2 ∧
    Device.init.getItem "zone3" = Device.init.zone3 ∧
    Device.init.getItem "zone4" = Device.init.zone4 :=
  C10_getitem Device.init "battery" (by decide)

/-- Shared helper: once `_is_connected` is true, any further serialized
`connect()` bodies return at the guard without touching the transport. -/
theorem runConnects_of_connected (s : ConnState) (hs : s.connected = true)
    (callers : List Bool) : Device.runConnects s callers = s := by
  induction callers with
  | nil => rfl
  | cons c cs ih =>
      unfold Device.runConnects at ih ⊢
      simp only [List.foldl_cons]
      rw [show Device.connectOnce c s = s from by unfold Device.connectOnce; rw [if_pos hs]]
      exact ih

/-- C9: under the serialization imposed by `GLOBAL_BLUETOOTH_LOCK` (held for
the whole `connect()` body), callers that find the device already connected
return without invoking the transport, and a batch of `n ≥ 1` concurrent
callers starting from a disconnected device — each of whose transport
connects would succeed — performs exactly one `establish_connection` call. -/
theorem C9_connect_serialized (s : ConnState) (callers : List Bool)
    (k n : Nat) (hs : s.connected = true) (hn : 1 ≤ n) :
    Device.runConnects s callers = s ∧
    Device.runConnects ⟨false, k⟩ (List.replicate n true) = ⟨true, k + 1⟩ := by
  refine ⟨runConnects_of_connected s hs callers, ?_⟩
  obtain ⟨m, rfl⟩ : ∃ m, n = m + 1 := ⟨n - 1, by omega⟩
  rw [List.replicate_succ]
  unfold Device.runConnects
  simp only [List.foldl_cons]
  rw [show Device.connectOnce true ⟨false, k⟩ = ⟨true, k + 1⟩ from rfl]
  exact runConnects_of_connected ⟨true, k + 1⟩ rfl (List.replicate m true)

/-- C9 witness: 4 simultaneous callers on a disconnected device cause
exactly one transport connect; on an already-connected device (one prior
transport connect) three further callers cause none. -/
theorem C9_connect_serialized_witness :
    Device.runConnects ⟨true, 1⟩ [true, true, true] = ⟨true, 1⟩ ∧
    Device.runConnects ⟨false, 0⟩ (List.replicate 4 true) = ⟨true, 0 + 1⟩ :=
  C9_connect_serialized ⟨true, 1⟩ [true, true, true] 0 4 rfl (by decide)

/-- C6: `_read_model` sets the model to the first 5 characters of the
decoded manufacturer payload (`string[0:5]`) and the valve count to the
value of the digit at index 6 (`int(string[6:7])`); the hypotheses say the
payload has a character at index 6 and that it is a decimal digit. -/
theorem C6_read_model (d : Device) (buf : List Char) (c : Char)
    (hc : buf[6]? = some c) (hdig : c.isDigit = true) :
    Device._read_model d buf =
      .ok { d with _model := buf.take 5, _valve_count := c.toNat - 48 } := by
  obtain ⟨hlt, hcel⟩ := List.getElem?_eq_some.mp hc
  show (match pyInt ((buf.drop 6).take 1) with
    | none => Except.error { d with _model := buf.take 5 }
    | some n => .ok { d with _model := buf.take 5, _valve_count := n })
    = .ok { d with _model := buf.take 5, _valve_count := c.toNat - 48 }
  rw [List.drop_eq_getElem_cons hlt, hcel]
  show (match pyInt [c] with
    | none => Except.error { d with _model := buf.take 5 }
    | some n => .ok { d with _model := buf.take 5, _valve_count := n })
    = .ok { d with _model := buf.take 5, _valve_count := c.toNat - 48 }
  rw [show pyInt [c] = some (c.toNat - 48) from by simp [pyInt, hdig]]

/-- C6 witness: manufacturer bytes `b"111110400"` yield model `"11111"` and
valve count 4. -/
theorem C6_read_model_witness :
    Device._read_model Device.init ("111110400".toList) =
      .ok { Device.init with _model := "11111".toList, _valve_count := 4 } := by
  have h := C6_read_model Device.init ("111110400".toList) '4' (by decide) (by decide)
  simpa using h

/-- Shared helper: reading a big-endian unsigned 16-bit quantity succeeds
whenever the buffer holds both bytes. -/
theorem unpackU16_eq_some_of_le (buf : List Nat) (off : Nat)
    (h : off + 2 ≤ buf.length) :
    unpackU16 buf off = some (buf[off] * 256 + buf[off + 1]) := by
  unfold unpackU16
  rw [List.getElem?_eq_getElem (show off < buf.length by omega),
    List.getElem?_eq_getElem (show off + 1 < buf.length by omega)]

/-- Shared helper: reading a big-endian unsigned 16-bit quantity fails
whenever the buffer is missing one of the two bytes. -/
theorem unpackU16_eq_none_of_lt (buf : List Nat) (off : Nat)
    (h : buf.length < off + 2) : unpackU16 buf off = none := by
  unfold unpackU16
  rw [List.getElem?_eq_none (show buf.length ≤ off + 1 by omega)]
  rcases buf[off]? with _ | a <;> rfl

/-- Shared helper: reading the boolean byte succeeds iff the buffer holds it. -/
theorem unpackBool_eq_some_of_lt (buf : List Nat) (off : Nat)
    (h : off < buf.length) :
    unpackBool buf off = some (decide (buf[off] ≠ 0)) := by
  unfold unpackBool
  rw [List.getElem?_eq_getElem h]
  rfl

/-- Shared helper: reading the boolean byte fails on a buffer that ends
before it. -/
theorem unpackBool_eq_none_of_le (buf : List Nat) (off : Nat)
    (h : buf.length ≤ off) : unpackBool buf off = none := by
  unfold unpackBool
  rw [List.getElem?_eq_none h]
  rfl

/-- C1 counterexample: the 5-byte slice `[0x02, 0x00, 0x05, 0x00, 0x05]` has
its duplicate field (bytes 3-4 = `[0x00, 0x05]`) equal to its canonical
manualMinutes field (bytes 1-2), yet decoding it into an otherwise-default
valve and re-encoding yields `[0x01, 0x00, 0x05, 0x00, 0x05]`, not the
original slice: `struct.unpack(">?")` collapses the non-boolean first byte
`0x02` to `True`, which `struct.pack(">?")` re-emits as `0x01`. -/
theorem C1_roundtrip_counterexample :
    Valve.update_state 0 (Valve.init 0) [2, 0, 5, 0, 5] VALVE_MANUAL_SETTINGS_UUID
      = .ok { _id := 0, _is_watering := true, _manual_minutes := 5, _end_time := 0 } ∧
    Valve._manual_setting_bytes
        { _id := 0, _is_watering := true, _manual_minutes := 5, _end_time := 0 }
      = some [1, 0, 5, 0, 5] ∧
    ([1, 0, 5, 0, 5] : List Nat) ≠ [2, 0, 5, 0, 5] :=
  ⟨rfl, by decide, by decide⟩

/-- C1 as amended: for a 5-byte settings slice whose duplicate field equals
its canonical field AND whose first byte is already a canonical boolean
(0 or 1), decode-then-encode on an otherwise-default valve reproduces the
original 5 bytes; for every 5-byte slice the encoder output carries the
canonical manualMinutes value in both positions, with first byte 1 exactly
when the slice's first byte was non-zero. -/
theorem C1_roundtrip_amended (b0 b1 b2 b3 b4 : Nat)
    (h0 : b0 < 256) (h1 : b1 < 256) (h2 : b2 < 256)
    (h3 : b3 < 256) (h4 : b4 < 256) :
    ∃ v : Valve,
      Valve.update_state 0 (Valve.init 0) [b0, b1, b2, b3, b4]
          VALVE_MANUAL_SETTINGS_UUID = .ok v ∧
      v._manual_setting_bytes =
        some [(if b0 ≠ 0 then 1 else 0), b1, b2, b1, b2] ∧
      (b0 ≤ 1 → b3 = b1 → b4 = b2 →
        v._manual_setting_bytes = some [b0, b1, b2, b3, b4]) := by
  have hm : b1 * 256 + b2 < 65536 := by omega
  have henc : Valve._manual_setting_bytes
      { _id := 0, _is_watering := decide (b0 ≠ 0),
        _manual_minutes := b1 * 256 + b2, _end_time := 0 }
      = some [(if b0 ≠ 0 then 1 else 0), b1, b2, b1, b2] := by
    rw [manual_setting_bytes_eq _ hm]
    have hdiv : (b1 * 256 + b2) / 256 = b1 := by omega
    have hmod : (b1 * 256 + b2) % 256 = b2 := by omega
    simp only [hdiv, hmod]
    by_cases hb : b0 = 0 <;> simp [hb]
  refine ⟨_, ?_, henc, ?_⟩
  · rfl
  · intro hle hb3 hb4
    rw [henc, hb3, hb4]
    interval_cases b0 <;> simp

/-- C1 witness: the amended round-trip at the concrete canonical slice
`[0x01, 0x00, 0x0A, 0x00, 0x0A]`. -/
theorem C1_roundtrip_amended_witness :
    ∃ v : Valve,
      Valve.update_state 0 (Valve.init 0) [1, 0, 10, 0, 10]
          VALVE_MANUAL_SETTINGS_UUID = .ok v ∧
      v._manual_setting_bytes =
        some [(if (1 : Nat) ≠ 0 then 1 else 0), 0, 10, 0, 10] ∧
      ((1 : Nat) ≤ 1 → (0 : Nat) = 0 → (10 : Nat) = 10 →
        v._manual_setting_bytes = some [1, 0, 10, 0, 10]) :=
  C1_roundtrip_amended 1 0 10 0 10 (by decide) (by decide) (by decide)
    (by decide) (by decide)

/-- C4 counterexample: valve index 0 (offset 0) and the 3-byte buffer
`[0x01, 0x00, 0x05]`, strictly shorter than `offset + 5 = 5`.  The claim says
the call must fail and leave both fields unchanged; in fact
`struct.unpack_from` only needs `offset + 1` and `offset + 3` bytes
respectively, so the call returns normally and sets `is_watering` to `True`
(was `False`) and `manual_watering_minutes` to 5 (was 20). -/
theorem C4_short_buffer_counterexample :
    ([1, 0, 5] : List Nat).length < 0 * 5 + 5 ∧
    Valve.update_state 0 (Valve.init 0) [1, 0, 5] VALVE_MANUAL_SETTINGS_UUID
      = .ok { _id := 0, _is_watering := true, _manual_minutes := 5, _end_time := 0 } ∧
    ({ _id := 0, _is_watering := true, _manual_minutes := 5, _end_time := 0 } : Valve)._is_watering
      ≠ (Valve.init 0)._is_watering ∧
    ({ _id := 0, _is_watering := true, _manual_minutes := 5, _end_time := 0 } : Valve)._manual_minutes
      ≠ (Valve.init 0)._manual_minutes :=
  ⟨by decide, rfl, by decide, by decide⟩

/-- C4 as amended: with `offset = 5 * i`, `update_state(buf,
VALVE_MANUAL_SETTINGS_UUID)` raises a `struct.error` iff
`buf.length < offset + 3` (not `offset + 5`): with `buf.length < offset + 1`
it raises leaving both fields unchanged; with
`offset + 1 ≤ buf.length < offset + 3` it raises only after having already
assigned `is_watering` from the byte at `offset`, leaving
`manual_watering_minutes` unchanged; and with `buf.length ≥ offset + 3`
(which includes lengths below `offset + 5`) it returns normally, updating
both fields. -/
theorem C4_short_buffer_amended (ts : Nat) (v : Valve) (buf : List Nat) :
    (buf.length < v._id * 5 + 1 →
      Valve.update_state ts v buf VALVE_MANUAL_SETTINGS_UUID = .error v) ∧
    (v._id * 5 + 1 ≤ buf.length → buf.length < v._id * 5 + 3 →
      ∃ w, unpackBool buf (v._id * 5) = some w ∧
        Valve.update_state ts v buf VALVE_MANUAL_SETTINGS_UUID
          = .error { v with _is_watering := w }) ∧
    (v._id * 5 + 3 ≤ buf.length →
      ∃ w m, unpackBool buf (v._id * 5) = some w ∧
        unpackU16 buf (v._id * 5 + 1) = some m ∧
        Valve.update_state ts v buf VALVE_MANUAL_SETTINGS_UUID
          = .ok { v with _is_watering := w, _manual_minutes := m }) := by
  refine ⟨?_, ?_, ?_⟩
  · intro hshort
    unfold Valve.update_state
    rw [if_pos rfl, unpackBool_eq_none_of_le buf (v._id * 5) (by omega)]
  · intro hlo hhi
    have hb : v._id * 5 < buf.length := by omega
    refine ⟨_, unpackBool_eq_some_of_lt buf (v._id * 5) hb, ?_⟩
    unfold Valve.update_state
    rw [if_pos rfl, unpackBool_eq_some_of_lt buf (v._id * 5) hb,
      unpackU16_eq_none_of_lt buf (v._id * 5 + 1) (by omega)]
  · intro hlen
    have hb : v._id * 5 < buf.length := by omega
    refine ⟨_, _, unpackBool_eq_some_of_lt buf (v._id * 5) hb,
      unpackU16_eq_some_of_le buf (v._id * 5 + 1) (by omega), ?_⟩
    unfold Valve.update_state
    rw [if_pos rfl, unpackBool_eq_some_of_lt buf (v._id * 5) hb,
      unpackU16_eq_some_of_le buf (v._id * 5 + 1) (by omega)]

/-- C4 witness: the three regimes of the amended claim at concrete inputs —
valve index 0 with the empty buffer (error, untouched), with `[0x07]`
(error, `is_watering` already set), and with `[0x01, 0x00, 0x05]` (normal
return, both fields set). -/
theorem C4_short_buffer_amended_witness :
    Valve.update_state 0 (Valve.init 0) [] VALVE_MANUAL_SETTINGS_UUID
      = .error (Valve.init 0) ∧
    (∃ w, unpackBool [7] ((Valve.init 0)._id * 5) = some w ∧
      Valve.update_state 0 (Valve.init 0) [7] VALVE_MANUAL_SETTINGS_UUID
        = .error { Valve.init 0 with _is_watering := w }) ∧
    (∃ w m, unpackBool [1, 0, 5] ((Valve.init 0)._id * 5) = some w ∧
      unpackU16 [1, 0, 5] ((Valve.init 0)._id * 5 + 1) = some m ∧
      Valve.update_state 0 (Valve.init 0) [1, 0, 5] VALVE_MANUAL_SETTINGS_UUID
        = .ok { Valve.init 0 with _is_watering := w, _manual_minutes := m }) :=
  ⟨(C4_short_buffer_amended 0 (Valve.init 0) []).1 (by decide),
   (C4_short_buffer_amended 0 (Valve.init 0) [7]).2.1 (by decide) (by decide),
   (C4_short_buffer_amended 0 (Valve.init 0) [1, 0, 5]).2.2 (by decide)⟩

/-- Shared helper: reading a big-endian unsigned 32-bit quantity succeeds
whenever the buffer holds all four bytes, and yields their big-endian
combination. -/
theorem unpackU32_eq_some_of_le (buf : List Nat) (off : Nat)
    (h : off + 4 ≤ buf.length) :
    unpackU32 buf off = some
      (buf[off] * 16777216 + buf[off + 1] * 65536 +
        buf[off + 2] * 256 + buf[off + 3]) := by
  unfold unpackU32
  rw [List.getElem?_eq_getElem (show off < buf.length by omega),
    List.getElem?_eq_getElem (show off + 1 < buf.length by omega),
    List.getElem?_eq_getElem (show off + 2 < buf.length by omega),
    List.getElem?_eq_getElem (show off + 3 < buf.length by omega)]

/-- C2: for a valve of index ≤ 3 and a buffer of length at least
`5 * i + 5`, `update_state` with the manual-states UUID reads the big-endian
unsigned 32-bit integer `n` at offset `5 * i + 1` and sets
`watering_end_time` to 0 when `n = 0` and to `n - time_shift()` otherwise;
moreover the result does not depend on the byte at offset `5 * i` (any
buffer agreeing with `buf` everywhere except that index decodes
identically). -/
theorem C2_state_decode (ts : Nat) (v : Valve) (buf : List Nat)
    (hid : v._id ≤ 3) (hlen : v._id * 5 + 5 ≤ buf.length) :
    ∃ n, unpackU32 buf (v._id * 5 + 1) = some n ∧
      Valve.update_state ts v buf VALVE_MANUAL_STATES_UUID
        = .ok { v with _end_time := if n = 0 then 0 else (n : Int) - ts } ∧
      ∀ buf' : List Nat, (∀ j, j ≠ v._id * 5 → buf'[j]? = buf[j]?) →
        Valve.update_state ts v buf' VALVE_MANUAL_STATES_UUID
          = Valve.update_state ts v buf VALVE_MANUAL_STATES_UUID := by
  refine ⟨_, unpackU32_eq_some_of_le buf (v._id * 5 + 1) (by omega), ?_, ?_⟩
  · unfold Valve.update_state
    rw [if_neg (show ¬(VALVE_MANUAL_STATES_UUID = VALVE_MANUAL_SETTINGS_UUID) by decide),
      if_pos rfl, unpackU32_eq_some_of_le buf (v._id * 5 + 1) (by omega)]
  · intro buf' hagree
    have hsame : unpackU32 buf' (v._id * 5 + 1) = unpackU32 buf (v._id * 5 + 1) := by
      unfold unpackU32
      rw [hagree (v._id * 5 + 1) (by omega), hagree (v._id * 5 + 1 + 1) (by omega),
        hagree (v._id * 5 + 1 + 2) (by omega), hagree (v._id * 5 + 1 + 3) (by omega)]
    unfold Valve.update_state
    rw [if_neg (show ¬(VALVE_MANUAL_STATES_UUID = VALVE_MANUAL_SETTINGS_UUID) by decide),
      if_pos rfl, hsame]
    rfl

/-- C2 witness: valve index 1 (offset 5), a 10-byte buffer whose four
counter bytes at offsets 6-9 encode 200, with `time_shift() = 100`. -/
theorem C2_state_decode_witness :
    ∃ n, unpackU32 [9, 0, 0, 0, 0, 9, 0, 0, 0, 200] ((Valve.init 1)._id * 5 + 1) = some n ∧
      Valve.update_state 100 (Valve.init 1) [9, 0, 0, 0, 0, 9, 0, 0, 0, 200]
          VALVE_MANUAL_STATES_UUID
        = .ok { Valve.init 1 with _end_time := if n = 0 then 0 else (n : Int) - 100 } ∧
      ∀ buf' : List Nat,
        (∀ j, j ≠ (Valve.init 1)._id * 5 →
          buf'[j]? = ([9, 0, 0, 0, 0, 9, 0, 0, 0, 200] : List Nat)[j]?) →
        Valve.update_state 100 (Valve.init 1) buf' VALVE_MANUAL_STATES_UUID
          = Valve.update_state 100 (Valve.init 1) [9, 0, 0, 0, 0, 9, 0, 0, 0, 200]
              VALVE_MANUAL_STATES_UUID :=
  C2_state_decode 100 (Valve.init 1) [9, 0, 0, 0, 0, 9, 0, 0, 0, 200]
    (by decide) (by decide)

/-- C8: when the valve-settings characteristic is present in the service
table, `push_state` issues exactly one settings write, whose payload is the
20-byte concatenation of the four internal zones' 5-byte encodings in index
order 0,1,2,3, placed before any updated-at write; when the characteristic
is absent, no settings write is issued and no error is raised (the call
still returns normally, issuing only the optional updated-at write).  The
hypotheses are the unsigned-16-bit data-model bound on each zone's
`manualMinutes` and the unsigned-32-bit bound on the pushed timestamp. -/
theorem C8_push_state_writes (ts : Nat) (upd : Bool) (d : Device)
    (h0 : d._valve0._manual_minutes < 65536)
    (h1 : d._valve1._manual_minutes < 65536)
    (h2 : d._valve2._manual_minutes < 65536)
    (h3 : d._valve3._manual_minutes < 65536)
    (hts : ts < 4294967296) :
    (∃ b0 b1 b2 b3 : List Nat,
      d._valve0._manual_setting_bytes = some b0 ∧
      d._valve1._manual_setting_bytes = some b1 ∧
      d._valve2._manual_setting_bytes = some b2 ∧
      d._valve3._manual_setting_bytes = some b3 ∧
      (b0 ++ b1 ++ b2 ++ b3).length = 20 ∧
      Device.push_state_writes ts true upd d =
        .ok (⟨VALVE_MANUAL_SETTINGS_UUID, b0 ++ b1 ++ b2 ++ b3, true⟩ ::
          (if upd then [⟨UPDATED_AT_UUID, u32be ts, true⟩] else []))) ∧
    Device.push_state_writes ts false upd d =
      .ok (if upd then [⟨UPDATED_AT_UUID, u32be ts, true⟩] else []) := by
  have e0 := manual_setting_bytes_eq d._valve0 h0
  have e1 := manual_setting_bytes_eq d._valve1 h1
  have e2 := manual_setting_bytes_eq d._valve2 h2
  have e3 := manual_setting_bytes_eq d._valve3 h3
  refine ⟨⟨_, _, _, _, e0, e1, e2, e3, by simp, ?_⟩, ?_⟩
  · unfold Device.push_state_writes
    rw [if_pos rfl, e0, e1, e2, e3]
    unfold pushUpdatedAt
    cases upd <;> simp [hts]
  · unfold Device.push_state_writes pushUpdatedAt
    cases upd <;> simp [hts]

/-- C8 witness: the freshly constructed device (all zones at the default
`is_watering = False`, `manual_watering_minutes = 20`), timestamp 0, no
updated-at characteristic. -/
theorem C8_push_state_writes_witness :
    (∃ b0 b1 b2 b3 : List Nat,
      Device.init._valve0._manual_setting_bytes = some b0 ∧
      Device.init._valve1._manual_setting_bytes = some b1 ∧
      Device.init._valve2._manual_setting_bytes = some b2 ∧
      Device.init._valve3._manual_setting_bytes = some b3 ∧
      (b0 ++ b1 ++ b2 ++ b3).length = 20 ∧
      Device.push_state_writes 0 true false Device.init =
        .ok (⟨VALVE_MANUAL_SETTINGS_UUID, b0 ++ b1 ++ b2 ++ b3, true⟩ ::
          (if false then [⟨UPDATED_AT_UUID, u32be 0, true⟩] else []))) ∧
    Device.push_state_writes 0 false false Device.init =
      .ok (if false then [⟨UPDATED_AT_UUID, u32be 0, true⟩] else []) :=
  C8_push_state_writes 0 false Device.init (by decide) (by decide) (by decide)
    (by decide) (by decide)

/-- C5: the code's behavior at the failing input.  The device has become
disconnected (`_is_connected = False`) while the manual-states read fails
with a `BleakError`; the battery and settings reads succeed.  The claim (and
the code's own comment) say the transport error must be suppressed and
`fetch_state` return normally — instead a `TypeError` escapes:
`asyncio.gather(..., return_exceptions=True)` returns the `BleakError` as a
*value*, `struct.unpack_from` applied to that value raises `TypeError`, and
`except BleakError` matches neither it nor anything else, so the dead
connected-check never runs. -/
theorem C5_fetch_disconnected_still_raises :
    Device.fetch_state_after_connect parseBatteryStub 0
        { Device.init with _is_connected := false, _valve_count := 4 }
        (.ok [2, 133]) (.ok (List.replicate 20 0)) .bleakFailure
      = .error PyExc.typeError := rfl
